import Mathlib

/-!
Verification of the InfluencerSphere backend core against its specification.

This file gives a shallow embedding, in Lean 4, of the parts of the backend
that the specification's testable properties talk about:

* `firestore_service.py` — the scoped store (public/private path derivation
  and the five CRUD operations, over the mocked backend);
* `recommendation_agent.py` — the scoring collaborator (`predict`), with the
  loaded model abstracted as a partial function `Profile → Option ℚ`
  (`none` models a prediction exception, which the source catches and
  replaces by the deterministic mock score);
* `influencer_service.py` — `search_and_filter_influencers` (filter, score,
  stable sort, truncate);
* `routes/search.py` — the route-level pagination applied on top of the
  service result;
* `alert_service.py` — `evaluate_all_alerts` (skip-if-too-soon gate, pool
  fetch through the search service, rule scan with break-after-first-match).

Python numbers (floats and ints) are modelled as exact rationals `ℚ`
(counts as `ℕ`), Python `None`-able dictionary fields as `Option`,
and Python truthiness tests (`if not x`) explicitly via `truthyStr` /
`truthyNum`.  Python's `sorted(key=…, reverse=True)` is a stable descending
sort; it is embedded as Mathlib's `List.insertionSort` with the relation
"score of the left argument is at least the score of the right argument",
which performs exactly the stable descending reordering.
-/

namespace InfluencerSphere

/-- Python truthiness of an optional string value: `None` and `""` are falsy. -/
def truthyStr : Option String → Bool
  | none => false
  | some s => !(s == "")

/-- Python truthiness of an optional numeric value: `None` and `0` are falsy. -/
def truthyNum : Option ℚ → Bool
  | none => false
  | some x => !(x == 0)

/-- Settings from `core/config.py` (defaults as in the source). -/
structure Settings where
  DEFAULT_SEARCH_LIMIT : ℕ := 25
  ALERT_CHECK_INTERVAL_SECONDS : ℚ := 300
  deriving DecidableEq

/-- An influencer profile document from the public collection, with the
fields the embedded code reads.  `follower_growth_rate` and
`feature_engagement_rate` model the scoring feature keys
`Follower_Growth_Rate` and `Average_Engagement_Rate` (distinct from the
profile field `average_engagement_rate`).  `market_score` / `market_tier`
are absent on raw store documents and attached by the search path. -/
structure Profile where
  id : String
  username : String
  bio : String
  niche_label : Option String := none
  average_engagement_rate : Option ℚ := none
  follower_count : Option ℕ := none
  follower_growth_rate : Option ℚ := none
  feature_engagement_rate : Option ℚ := none
  market_score : Option ℚ := none
  market_tier : Option String := none
  deriving DecidableEq

/-- The state of `RecommendationAgent`: either no model artifact was found
(`is_ready = False`, every prediction uses the mock score), or a model is
loaded; the loaded model is a black box `Profile → Option ℚ` where `none`
models `self.model.predict` raising (caught by the source, which then
falls back to the mock score). -/
inductive AgentModel where
  | noModel : AgentModel
  | loaded (f : Profile → Option ℚ) : AgentModel

/-- `RecommendationAgent._mock_rank_score`: `(growth_rate * 500) +
(avg_engagement * 10) + 40`, with defaults `0.05` and `3.0`. -/
def mockRankScore (p : Profile) : ℚ :=
  p.follower_growth_rate.getD (1/20) * 500 + p.feature_engagement_rate.getD 3 * 10 + 40

/-- `np.clip(x, lo, hi)`. -/
def npClip (x lo hi : ℚ) : ℚ := min (max x lo) hi

/-- Python's `round` to an integer: round half to even (banker's rounding). -/
def roundHalfEven (x : ℚ) : ℤ :=
  if x - ⌊x⌋ < 1/2 then ⌊x⌋
  else if (1:ℚ)/2 < x - ⌊x⌋ then ⌊x⌋ + 1
  else if ⌊x⌋ % 2 = 0 then ⌊x⌋ else ⌊x⌋ + 1

/-- Python `round(x, 2)` (floats modelled as exact rationals). -/
def pyRound2 (x : ℚ) : ℚ := (roundHalfEven (x * 100) : ℚ) / 100

/-- Python `round(x, 0)`. -/
def pyRound0 (x : ℚ) : ℚ := (roundHalfEven x : ℚ)

/-- The tier labelling of `RecommendationAgent.predict`. -/
def marketTier (s : ℚ) : String :=
  if 90 ≤ s then "A-List Talent"
  else if 70 ≤ s then "High-Growth Asset"
  else "Scouting Target"

/-- The estimated-value arm of `RecommendationAgent.predict`. -/
def estValue (s : ℚ) : ℚ :=
  if 90 ≤ s then 5000 + s * 150
  else if 70 ≤ s then 2000 + s * 75
  else 500 + s * 30

/-- The rank score before clipping: mock when no model is loaded; with a
loaded model, the model's output, falling back to the mock score when the
prediction raises (`except` branch of `predict`). -/
def rawRankScore (agent : AgentModel) (p : Profile) : ℚ :=
  match agent with
  | .noModel => mockRankScore p
  | .loaded f => (f p).getD (mockRankScore p)

/-- Result of `RecommendationAgent.predict`. -/
structure Prediction where
  market_value_score : ℚ
  market_tier : String
  estimated_post_fee_usd : ℚ
  deriving DecidableEq

/-- `RecommendationAgent.predict`. -/
def predict (agent : AgentModel) (p : Profile) : Prediction :=
  let rank := npClip (rawRankScore agent p) 1 100
  { market_value_score := pyRound2 rank
    market_tier := marketTier rank
    estimated_post_fee_usd := pyRound0 (estValue rank) }

/-- The augmentation step of the search loop: `profile['market_score'] = …;
profile['market_tier'] = …`. -/
def attachScore (agent : AgentModel) (p : Profile) : Profile :=
  { p with
    market_score := some (predict agent p).market_value_score
    market_tier := some (predict agent p).market_tier }

/-- Sort key of the search result: `x.get('market_score', 0)`. -/
def scoreKey (p : Profile) : ℚ := p.market_score.getD 0

/-- The ordering used by `sorted(…, key=market_score, reverse=True)`:
`a` may come before `b` exactly when `b`'s score is at most `a`'s. -/
def byScoreDesc (a b : Profile) : Prop := scoreKey b ≤ scoreKey a

instance : DecidableRel byScoreDesc :=
  fun a b => inferInstanceAs (Decidable (scoreKey b ≤ scoreKey a))

instance : IsTotal Profile byScoreDesc :=
  ⟨fun a b => le_total (scoreKey b) (scoreKey a)⟩

instance : IsTrans Profile byScoreDesc :=
  ⟨fun _ _ _ h1 h2 => le_trans h2 h1⟩

/-- The `query_params` dictionary handed to
`search_and_filter_influencers`.  The service reads only `niche`,
`min_engagement_rate`, `min_followers`, `max_followers` and `limit`;
`q` and `page` are present in the dictionary built by the route but never
read by the service. -/
structure QueryParams where
  q : Option String := none
  niche : Option String := none
  min_engagement_rate : Option ℚ := none
  min_followers : Option ℕ := none
  max_followers : Option ℕ := none
  limit : Option ℕ := none
  page : Option ℕ := none
  deriving DecidableEq

/-- The upper half of the follower-range check:
`follower_count <= query_params.get('max_followers', float('inf'))`. -/
def maxFollowersOk : Option ℕ → ℕ → Bool
  | none, _ => true
  | some m, fc => decide (fc ≤ m)

/-- The filter block of the search loop: a profile survives when it passes
the truthy niche filter, the truthy minimum-engagement filter, and the
follower-range filter (`min_followers` defaulting to `0`, `max_followers`
defaulting to unbounded). -/
def passesFilters (qp : QueryParams) (p : Profile) : Bool :=
  (!truthyStr qp.niche || p.niche_label == qp.niche)
    && (!truthyNum qp.min_engagement_rate
        || !decide (p.average_engagement_rate.getD 0 < qp.min_engagement_rate.getD 0))
    && decide (qp.min_followers.getD 0 ≤ p.follower_count.getD 0)
    && maxFollowersOk qp.max_followers (p.follower_count.getD 0)

/-- The body of the search loop: keep each surviving profile, augmented
with its market score and tier, in store order. -/
def filteredScored (agent : AgentModel) (qp : QueryParams) : List Profile → List Profile
  | [] => []
  | p :: ps =>
      if passesFilters qp p then attachScore agent p :: filteredScored agent qp ps
      else filteredScored agent qp ps

/-- The full scored listing, stable-sorted descending by market score
(`sorted_results` in the source, before the `[:limit]` truncation). -/
def rankedListing (agent : AgentModel) (qp : QueryParams) (pool : List Profile) : List Profile :=
  List.insertionSort byScoreDesc (filteredScored agent qp pool)

/-- `InfluencerService.search_and_filter_influencers` over a given public
pool: filter, score, stable-sort descending, then `[:limit]` with the limit
defaulting to `settings.DEFAULT_SEARCH_LIMIT`. -/
def search_and_filter_influencers (settings : Settings) (agent : AgentModel)
    (pool : List Profile) (qp : QueryParams) : List Profile :=
  (rankedListing agent qp pool).take (qp.limit.getD settings.DEFAULT_SEARCH_LIMIT)

/-- The `GET /search/influencers` route body: build the parameter
dictionary (`min_engagement` and `min_followers` always present, no
`max_followers` key), call the service, then slice
`[start_index : start_index + limit]` with `start_index = (page-1)*limit`. -/
def search_influencers (settings : Settings) (agent : AgentModel) (pool : List Profile)
    (q niche : Option String) (min_engagement : ℚ) (min_followers : ℕ)
    (page limit : ℕ) : List Profile :=
  let params : QueryParams :=
    { q := q, niche := niche, min_engagement_rate := some min_engagement,
      min_followers := some min_followers, limit := some limit, page := some page }
  let all_results := search_and_filter_influencers settings agent pool params
  (all_results.drop ((page - 1) * limit)).take limit

/-- A private alert document as read by `evaluate_all_alerts` (keys
`condition_type`, `value`, `niche`, plus the metadata stamped on creation;
`is_active` is part of the exposed rule schema but is never read by the
evaluation loop). -/
structure AlertRule where
  id : Option String := none
  user_id : Option String := none
  condition_type : Option String := none
  value : Option ℚ := none
  niche : Option String := none
  is_active : Option Bool := none
  created_at : Option ℚ := none
  deriving DecidableEq

/-- A triggered-alert record as built inside `evaluate_all_alerts`
(numeric rendering inside the message abstracted by `toString`). -/
structure TriggeredAlert where
  alert_id : Option String
  user_id : Option String
  message : String
  triggered_on : String
  profile_link : String
  deriving DecidableEq

/-- Construction of one triggered alert from a rule and a matching
`(influencer_id, profile)` entry of the influencer map. -/
def mkTriggered (r : AlertRule) (kv : String × Profile) : TriggeredAlert :=
  { alert_id := r.id
    user_id := r.user_id
    message := "Market alert triggered! Influencer " ++ kv.2.username
      ++ " meets your criteria (" ++ (r.condition_type.getD "")
      ++ " >= " ++ toString (r.value.getD 0) ++ ")."
    triggered_on := kv.2.username
    profile_link := "/influencers/" ++ kv.1 }

/-- The niche gate of the scan: a profile is skipped when the rule carries
a truthy niche filter different from the profile's niche label. -/
def nichePass (r : AlertRule) (p : Profile) : Bool :=
  !truthyStr r.niche || p.niche_label == r.niche

/-- The condition check of the scan (`is_triggered`). -/
def condTriggers (r : AlertRule) (p : Profile) : Bool :=
  if r.condition_type == some "min_engagement_rate" then
    decide (r.value.getD 0 ≤ p.average_engagement_rate.getD 0)
  else if r.condition_type == some "min_market_score" then
    decide (r.value.getD 0 ≤ p.market_score.getD 0)
  else false

/-- A map entry triggers a rule when it passes the niche gate and the
condition check. -/
def profileTriggers (r : AlertRule) (p : Profile) : Bool :=
  nichePass r p && condTriggers r p

/-- The per-rule part of the scan: skip the rule when `condition_type` or
`value` is falsy; otherwise emit one alert for the first matching map
entry (the loop breaks after the first match) and none when no entry
matches. -/
def ruleAlerts (pmap : List (String × Profile)) (r : AlertRule) : List TriggeredAlert :=
  if !truthyStr r.condition_type || !truthyNum r.value then []
  else
    match pmap.find? (fun kv => profileTriggers r kv.2) with
    | some kv => [mkTriggered r kv]
    | none => []

/-- The full rule loop of `evaluate_all_alerts`: fold over the rules,
appending each rule's alerts to the accumulator. -/
def evalScan (rules : List AlertRule) (pmap : List (String × Profile)) : List TriggeredAlert :=
  rules.foldl (fun acc r => acc ++ ruleAlerts pmap r) []

/-- One step of building the Python dict `{p['id']: p for p in market_data}`:
a repeated id overwrites the stored value in place, a new id is appended. -/
def insertKeyed (m : List (String × Profile)) (p : Profile) : List (String × Profile) :=
  if m.any (fun kv => kv.1 == p.id) then
    m.map (fun kv => if kv.1 == p.id then (kv.1, p) else kv)
  else m ++ [(p.id, p)]

/-- The influencer map keyed by profile id, in Python dict insertion order. -/
def buildProfileMap (ps : List Profile) : List (String × Profile) :=
  ps.foldl insertKeyed []

/-- Outcome of one `evaluate_all_alerts` invocation: the recorded
last-check time after the call, the triggered alerts returned, and how
many store collection listings the call performed (the call-count probe:
one public listing through the search service plus one private listing of
the alert collection when the scan runs, none when it is skipped). -/
structure EvalOutcome where
  last_check_time : ℚ
  alerts : List TriggeredAlert
  store_list_calls : ℕ
  deriving DecidableEq

/-- `AlertService.evaluate_all_alerts`: skip (returning `[]`, touching
nothing) when less than the configured interval has elapsed since the last
recorded check; otherwise record the new check time, fetch the market pool
through `search_and_filter_influencers({})`, list all alert rules, and run
the scan. -/
def evaluate_all_alerts (settings : Settings) (agent : AgentModel) (pool : List Profile)
    (rules : List AlertRule) (last_check_time now : ℚ) : EvalOutcome :=
  if now - last_check_time < settings.ALERT_CHECK_INTERVAL_SECONDS then
    { last_check_time := last_check_time, alerts := [], store_list_calls := 0 }
  else
    let market_data := search_and_filter_influencers settings agent pool {}
    let influencer_map := buildProfileMap market_data
    { last_check_time := now
      alerts := evalScan rules influencer_map
      store_list_calls := 2 }

/-- The identity state of `FirestoreService`: the application id and the
(optionally bound) tenant identity `current_user_id`. -/
structure FirestoreState where
  app_id : String
  current_user_id : Option String
  deriving DecidableEq

/-- The error message of `_get_private_collection_path` when no tenant
identity is bound. -/
def authRequiredMsg : String := "Authentication required for private data access."

/-- `_get_public_collection_path`: never depends on the tenant identity. -/
def public_collection_path (s : FirestoreState) (collection_name : String) : String :=
  "artifacts/" ++ s.app_id ++ "/public/data/" ++ collection_name

/-- `_get_private_collection_path`: raises when no truthy tenant identity
is bound to the state. -/
def private_collection_path (s : FirestoreState) (collection_name : String) :
    Except String String :=
  if truthyStr s.current_user_id then
    .ok ("artifacts/" ++ s.app_id ++ "/users/" ++ s.current_user_id.getD "" ++ "/"
      ++ collection_name)
  else .error authRequiredMsg

/-- The scope dispatch shared by all five CRUD operations. -/
def collection_path (s : FirestoreState) (collection_name : String) (is_private : Bool) :
    Except String String :=
  if is_private then private_collection_path s collection_name
  else .ok (public_collection_path s collection_name)

/-- A document as produced by the mocked backend (`MockDocumentSnapshot`
with `data['id']` overwritten by the snapshot id). -/
structure MockDocument where
  id : String
  mock_field : String
  deriving DecidableEq

/-- The last path segment, `path.split('/')[-1]`. -/
def lastSegment (path : String) : String :=
  (path.splitOn "/").getLastD ""

/-- `FirestoreService.get_document`: derive the scoped path, then read the
(always existing) mock snapshot at `path/doc_id`. -/
def get_document (s : FirestoreState) (collection_name doc_id : String) (is_private : Bool) :
    Except String (Option MockDocument) := do
  let path ← collection_path s collection_name is_private
  pure (some { id := lastSegment (path ++ "/" ++ doc_id), mock_field := "test_data" })

/-- `FirestoreService.get_collection`: derive the scoped path, then stream
the two mock documents of `MockCollectionRef.stream`, each carrying its
own id. -/
def get_collection (s : FirestoreState) (collection_name : String) (is_private : Bool) :
    Except String (List (String × String)) := do
  let _path ← collection_path s collection_name is_private
  pure [("doc1", "Influencer 1"), ("doc2", "Influencer 2")]

/-- `FirestoreService.add_document`: derive the scoped path, then add,
returning the mock id built from the size of the data dictionary. -/
def add_document (s : FirestoreState) (collection_name : String)
    (data : List (String × String)) (is_private : Bool) : Except String String := do
  let _path ← collection_path s collection_name is_private
  pure ("mock-doc-" ++ toString data.length)

/-- `FirestoreService.set_document` (put, with optional merge). -/
def set_document (s : FirestoreState) (collection_name doc_id : String)
    (data : List (String × String)) (is_private merge : Bool) : Except String Unit := do
  let _path ← collection_path s collection_name is_private
  pure ()

/-- `FirestoreService.delete_document`. -/
def delete_document (s : FirestoreState) (collection_name doc_id : String)
    (is_private : Bool) : Except String Unit := do
  let _path ← collection_path s collection_name is_private
  pure ()

/-- The predicate keys a caller can supply to the search operation; used
to state what removing one predicate from a query does. -/
inductive SearchKey where
  | niche
  | minEngagement
  | minFollowers
  | maxFollowers
  | freeText
  deriving DecidableEq

/-- Remove one predicate from a query-parameter dictionary. -/
def removeKey (qp : QueryParams) : SearchKey → QueryParams
  | .niche => { qp with niche := none }
  | .minEngagement => { qp with min_engagement_rate := none }
  | .minFollowers => { qp with min_followers := none }
  | .maxFollowers => { qp with max_followers := none }
  | .freeText => { qp with q := none }

/-- Whether `needle` is an initial segment of `hay`. -/
def charsStart (needle hay : List Char) : Bool :=
  match needle, hay with
  | [], _ => true
  | _ :: _, [] => false
  | a :: as, b :: bs => a == b && charsStart as bs

/-- Whether `needle` occurs contiguously inside `hay`. -/
def charsSub (needle : List Char) : List Char → Bool
  | [] => charsStart needle []
  | c :: t => charsStart needle (c :: t) || charsSub needle t

/-- ASCII lowercasing of one character, as `Char.toLower` computes it. -/
def lowerChar (c : Char) : Char :=
  if c.isUpper then Char.ofNat (c.toNat + 32) else c

/-- Modelled from the spec: the free-text predicate of the Search &
Ranking Engine — a case-insensitive substring match of the query over a
profile text field.  The source under `src/` never implements this check
(the service ignores the `q` key); this definition follows the spec's
words and is used to compare the claimed behaviour with the code's. -/
def specFreeTextMatch (query field : String) : Bool :=
  charsSub (query.toList.map lowerChar) (field.toList.map lowerChar)

/-! ### Helper lemmas -/

/-- Folding the per-rule alert lists through an accumulator yields the
concatenation of the per-rule alert lists. -/
theorem foldl_ruleAlerts (pmap : List (String × Profile)) (rules : List AlertRule)
    (init : List TriggeredAlert) :
    rules.foldl (fun acc r => acc ++ ruleAlerts pmap r) init
      = init ++ rules.flatMap (ruleAlerts pmap) := by
  induction rules generalizing init with
  | nil => simp
  | cons r rs ih => simp [List.foldl_cons, ih, List.append_assoc]

/-- The scan is the concatenation of the independent per-rule results. -/
theorem evalScan_eq_flatMap (rules : List AlertRule) (pmap : List (String × Profile)) :
    evalScan rules pmap = rules.flatMap (ruleAlerts pmap) := by
  simpa using foldl_ruleAlerts pmap rules []

/-- Unfolding of an `evaluate_all_alerts` invocation whose gate passes. -/
theorem evaluate_all_alerts_run (settings : Settings) (agent : AgentModel)
    (pool : List Profile) (rules : List AlertRule) (last_check_time now : ℚ)
    (h : ¬ (now - last_check_time < settings.ALERT_CHECK_INTERVAL_SECONDS)) :
    evaluate_all_alerts settings agent pool rules last_check_time now =
      { last_check_time := now
        alerts := evalScan rules
          (buildProfileMap (search_and_filter_influencers settings agent pool {}))
        store_list_calls := 2 } := by
  rw [evaluate_all_alerts, if_neg h]

/-- Unfolding of an `evaluate_all_alerts` invocation whose gate skips. -/
theorem evaluate_all_alerts_skip (settings : Settings) (agent : AgentModel)
    (pool : List Profile) (rules : List AlertRule) (last_check_time now : ℚ)
    (h : now - last_check_time < settings.ALERT_CHECK_INTERVAL_SECONDS) :
    evaluate_all_alerts settings agent pool rules last_check_time now =
      { last_check_time := last_check_time, alerts := [], store_list_calls := 0 } := by
  rw [evaluate_all_alerts, if_pos h]

/-- The search loop body equals filtering then scoring each survivor. -/
theorem filteredScored_eq_map_filter (agent : AgentModel) (qp : QueryParams)
    (pool : List Profile) :
    filteredScored agent qp pool
      = (pool.filter (passesFilters qp)).map (attachScore agent) := by
  induction pool with
  | nil => rfl
  | cons p ps ih =>
    by_cases h : passesFilters qp p = true <;>
      simp [filteredScored, List.filter_cons, h, ih]

/-- Scoring augmentation does not change the fields the filters read. -/
theorem passesFilters_attachScore (agent : AgentModel) (qp : QueryParams) (p : Profile) :
    passesFilters qp (attachScore agent p) = passesFilters qp p := by
  simp [passesFilters, attachScore]

/-- Inserting an element whose key equals `k` leaves it at the head of the
key-`k` sublist: everything the insertion walks past has a strictly larger
key. -/
theorem filter_orderedInsert_of_key (k : ℚ) (a : Profile) (l : List Profile)
    (ha : scoreKey a = k) :
    (List.orderedInsert byScoreDesc a l).filter (fun p => scoreKey p == k)
      = a :: l.filter (fun p => scoreKey p == k) := by
  induction l with
  | nil => simp [List.orderedInsert, List.filter_cons, ha]
  | cons b bs ih =>
    rw [List.orderedInsert]
    by_cases h : byScoreDesc a b
    · rw [if_pos h]
      simp [List.filter_cons, ha]
    · rw [if_neg h]
      have hb : (scoreKey b == k) = false := by
        simp only [byScoreDesc, not_le] at h
        simp only [beq_eq_false_iff_ne, ne_eq]
        intro hbk
        rw [hbk, ← ha] at h
        exact absurd h (lt_irrefl _)
      simp [List.filter_cons, hb, ih]

/-- Inserting an element whose key differs from `k` does not disturb the
key-`k` sublist. -/
theorem filter_orderedInsert_of_ne (k : ℚ) (a : Profile) (l : List Profile)
    (ha : scoreKey a ≠ k) :
    (List.orderedInsert byScoreDesc a l).filter (fun p => scoreKey p == k)
      = l.filter (fun p => scoreKey p == k) := by
  have ha' : (scoreKey a == k) = false := by simpa [beq_eq_false_iff_ne] using ha
  induction l with
  | nil => simp [List.orderedInsert, List.filter_cons, ha']
  | cons b bs ih =>
    rw [List.orderedInsert]
    by_cases h : byScoreDesc a b
    · rw [if_pos h]
      simp [List.filter_cons, ha']
    · rw [if_neg h]
      simp [List.filter_cons, ih]

/-- Stability of the embedded sort: for every key value, the sorted list
restricted to that key value is the input list restricted to it, in the
same order. -/
theorem filter_insertionSort_key (k : ℚ) (l : List Profile) :
    (List.insertionSort byScoreDesc l).filter (fun p => scoreKey p == k)
      = l.filter (fun p => scoreKey p == k) := by
  induction l with
  | nil => rfl
  | cons a l ih =>
    rw [List.insertionSort]
    by_cases ha : scoreKey a = k
    · rw [filter_orderedInsert_of_key k a _ ha, ih, List.filter_cons]
      simp [ha]
    · rw [filter_orderedInsert_of_ne k a _ ha, ih, List.filter_cons]
      simp [ha]

/-- Truncating a list leaves any filtered-out sublist an initial segment
of the untruncated one. -/
theorem filter_take_initial (n : ℕ) (l : List Profile) (p : Profile → Bool) :
    ∃ t, l.filter p = (l.take n).filter p ++ t :=
  ⟨(l.drop n).filter p, by rw [← List.filter_append, List.take_append_drop]⟩

/-- Removing any one predicate key from a query keeps every surviving
profile surviving. -/
theorem passesFilters_removeKey (qp : QueryParams) (k : SearchKey) (p : Profile)
    (h : passesFilters qp p = true) : passesFilters (removeKey qp k) p = true := by
  simp only [passesFilters, Bool.and_eq_true] at h
  obtain ⟨⟨⟨h1, h2⟩, h3⟩, h4⟩ := h
  cases k <;>
    simp only [removeKey, passesFilters, Bool.and_eq_true, truthyStr, truthyNum,
      maxFollowersOk, Bool.not_false, Bool.true_or, Option.getD] <;>
    refine ⟨⟨⟨?_, ?_⟩, ?_⟩, ?_⟩ <;>
    first
      | exact h1
      | exact h2
      | exact h3
      | exact h4
      | simp

/-! ### Concrete store contents used by the closed theorems -/

/-- A profile with a high engagement rate but the lowest mock market score
(`0*500 + 0*10 + 40 = 40`). -/
def pLow : Profile :=
  { id := "low", username := "lowstar", bio := "",
    average_engagement_rate := some 9, follower_growth_rate := some 0,
    feature_engagement_rate := some 0 }

/-- `pLow` as scored by the search path. -/
def qLow : Profile :=
  { pLow with market_score := some 40, market_tier := some "Scouting Target" }

/-- A profile family with zero engagement rate but the highest possible
mock market score (`10*500 + 3*10 + 40 = 5070`, clipped to `100`). -/
def pHigh (n : String) : Profile :=
  { id := n, username := n, bio := "",
    average_engagement_rate := some 0, follower_growth_rate := some 10,
    feature_engagement_rate := some 3 }

/-- `pHigh n` as scored by the search path. -/
def qHigh (n : String) : Profile :=
  { pHigh n with market_score := some 100, market_tier := some "A-List Talent" }

/-- A 26-profile public pool: 25 top-scored profiles and `pLow` (which
ranks 26th and falls off the default search page of 25). -/
def bigPool : List Profile :=
  [pHigh "a", pHigh "b", pHigh "c", pHigh "d", pHigh "e", pHigh "f", pHigh "g",
   pHigh "h", pHigh "i", pHigh "j", pHigh "k", pHigh "l", pHigh "m", pHigh "n",
   pHigh "o", pHigh "p", pHigh "q", pHigh "r", pHigh "s", pHigh "t", pHigh "u",
   pHigh "v", pHigh "w", pHigh "x", pHigh "y", pLow]

/-- The scored version of `bigPool`, already in descending score order. -/
def bigScored : List Profile :=
  [qHigh "a", qHigh "b", qHigh "c", qHigh "d", qHigh "e", qHigh "f", qHigh "g",
   qHigh "h", qHigh "i", qHigh "j", qHigh "k", qHigh "l", qHigh "m", qHigh "n",
   qHigh "o", qHigh "p", qHigh "q", qHigh "r", qHigh "s", qHigh "t", qHigh "u",
   qHigh "v", qHigh "w", qHigh "x", qHigh "y", qLow]

/-- A plain profile with username and bio text (mock score
`(1/20)*500 + 3*10 + 40 = 95`). -/
def pAlice : Profile :=
  { id := "alice1", username := "alice", bio := "hello world" }

/-- `pAlice` as scored by the search path. -/
def qAlice : Profile :=
  { pAlice with market_score := some 95, market_tier := some "A-List Talent" }

/-- An active rule: trigger on engagement rate at least 5, any niche. -/
def engRule : AlertRule :=
  { id := some "r1", user_id := some "u1",
    condition_type := some "min_engagement_rate", value := some 5 }

/-- A rule with a present-but-zero threshold value. -/
def zeroRule : AlertRule :=
  { id := some "rz", user_id := some "u1",
    condition_type := some "min_engagement_rate", value := some 0 }

/-- A rule marked inactive (`is_active = False`). -/
def inactiveRule : AlertRule :=
  { id := some "r2", user_id := some "u1",
    condition_type := some "min_engagement_rate", value := some 5,
    is_active := some false }

/-- Evaluation: the search loop scores all 26 profiles of `bigPool`. -/
theorem bigPool_filteredScored :
    filteredScored AgentModel.noModel {} bigPool = bigScored := by
  norm_num [filteredScored, passesFilters, truthyStr, truthyNum, maxFollowersOk,
    attachScore, predict, rawRankScore, mockRankScore, npClip, pyRound2, roundHalfEven,
    marketTier, bigPool, bigScored, pHigh, pLow, qHigh, qLow]

/-- `bigScored` is already sorted, so the stable sort leaves it unchanged. -/
theorem bigScored_sort_eq :
    List.insertionSort byScoreDesc bigScored = bigScored :=
  List.Sorted.insertionSort_eq (by decide)

/-- Evaluation: the market pool fetched by the alert engine is `bigScored`
truncated to the default search page of 25. -/
theorem bigPool_market :
    search_and_filter_influencers {} AgentModel.noModel bigPool {} = bigScored.take 25 := by
  rw [search_and_filter_influencers, rankedListing, bigPool_filteredScored, bigScored_sort_eq]
  rfl

/-- Evaluation: searching a one-profile pool with no predicates returns
that profile, scored. -/
theorem pLow_search :
    search_and_filter_influencers {} AgentModel.noModel [pLow] {} = [qLow] := by
  norm_num [search_and_filter_influencers, rankedListing, filteredScored, passesFilters,
    truthyStr, truthyNum, maxFollowersOk, List.insertionSort, List.orderedInsert,
    attachScore, predict, rawRankScore, mockRankScore, npClip, pyRound2, roundHalfEven,
    marketTier, pLow, qLow]

/-- Evaluation: a free-text query is dropped on the floor by the service;
`pAlice` comes back even though neither its username nor its bio matches. -/
theorem pAlice_search_q :
    search_and_filter_influencers {} AgentModel.noModel [pAlice] { q := some "zzz" }
      = [qAlice] := by
  norm_num [search_and_filter_influencers, rankedListing, filteredScored, passesFilters,
    truthyStr, truthyNum, maxFollowersOk, List.insertionSort, List.orderedInsert,
    attachScore, predict, rawRankScore, mockRankScore, npClip, pyRound2, roundHalfEven,
    marketTier, pAlice, qAlice]

/-- Evaluation: scoring `pLow` under a model that always raises falls back
to the mock score; the record is kept, not excluded. -/
theorem pLow_search_failing_model :
    search_and_filter_influencers {} (AgentModel.loaded fun _ => none) [pLow] {}
      = [qLow] := by
  norm_num [search_and_filter_influencers, rankedListing, filteredScored, passesFilters,
    truthyStr, truthyNum, maxFollowersOk, List.insertionSort, List.orderedInsert,
    attachScore, predict, rawRankScore, mockRankScore, npClip, pyRound2, roundHalfEven,
    marketTier, pLow, qLow]

/-! ### Claim theorems -/

/-- C2 (amended): for every scanned profile map and every rule with
condition type `min_engagement_rate` and a nonzero threshold `T`, the
evaluation cycle's scan treats the rule independently of the other rules,
and the rule's own contribution is exactly one TriggeredAlert for the
first map entry passing the niche filter with average engagement rate at
least `T` — so the rule triggers iff at least one such entry exists and
never yields more than one alert. -/
theorem c2_min_engagement_rule (pmap : List (String × Profile))
    (rules1 rules2 : List AlertRule) (r : AlertRule) (T : ℚ)
    (hc : r.condition_type = some "min_engagement_rate")
    (hv : r.value = some T) (hT : T ≠ 0) :
    evalScan (rules1 ++ r :: rules2) pmap
      = evalScan rules1 pmap ++ (ruleAlerts pmap r ++ evalScan rules2 pmap)
    ∧ ruleAlerts pmap r
        = ((pmap.find? fun kv => nichePass r kv.2
            && decide (T ≤ kv.2.average_engagement_rate.getD 0)).map (mkTriggered r)).toList
    ∧ (ruleAlerts pmap r ≠ []
        ↔ pmap.any (fun kv => nichePass r kv.2
            && decide (T ≤ kv.2.average_engagement_rate.getD 0)) = true)
    ∧ (ruleAlerts pmap r).length ≤ 1 := by
  have hpredfn : (fun kv : String × Profile => profileTriggers r kv.2)
      = fun kv => nichePass r kv.2 && decide (T ≤ kv.2.average_engagement_rate.getD 0) := by
    funext kv
    simp [profileTriggers, condTriggers, hc, hv]
  have hra : ruleAlerts pmap r
      = ((pmap.find? fun kv => nichePass r kv.2
          && decide (T ≤ kv.2.average_engagement_rate.getD 0)).map (mkTriggered r)).toList := by
    rw [ruleAlerts, hpredfn]
    have hgate : (!truthyStr r.condition_type || !truthyNum r.value) = false := by
      simp [truthyStr, truthyNum, hc, hv, hT]
    rw [hgate]
    cases hfind : pmap.find? (fun kv =>
        nichePass r kv.2 && decide (T ≤ kv.2.average_engagement_rate.getD 0)) <;>
      simp [hfind]
  refine ⟨by simp [evalScan_eq_flatMap], hra, ?_, ?_⟩
  · rw [hra]
    cases hfind : pmap.find? (fun kv =>
        nichePass r kv.2 && decide (T ≤ kv.2.average_engagement_rate.getD 0)) with
    | none =>
      rw [List.find?_eq_none] at hfind
      simp only [Option.map_none', Option.toList_none, ne_eq, not_true_eq_false, false_iff]
      intro hany
      obtain ⟨x, hx, hpx⟩ := List.any_eq_true.mp hany
      exact hfind x hx hpx
    | some kv =>
      have hmem := List.mem_of_find?_eq_some hfind
      have hpkv := List.find?_some hfind
      simp only [Option.map_some', Option.toList_some, ne_eq, List.cons_ne_nil,
        not_false_eq_true, true_iff, List.any_eq_true]
      exact ⟨kv, hmem, by simpa using hpkv⟩
  · rw [hra]
    cases pmap.find? (fun kv =>
        nichePass r kv.2 && decide (T ≤ kv.2.average_engagement_rate.getD 0)) <;> simp

/-- C2 witness: a cycle with two qualifying profiles (engagement 9 under
threshold 5) emits exactly one alert for the rule, for the first profile
in iteration order. -/
theorem c2_min_engagement_rule_witness :
    engRule.condition_type = some "min_engagement_rate"
    ∧ engRule.value = some 5
    ∧ (5:ℚ) ≠ 0
    ∧ (evalScan ([zeroRule] ++ engRule :: [inactiveRule]) [("a", pLow), ("b", qLow)]
        = evalScan [zeroRule] [("a", pLow), ("b", qLow)]
          ++ (ruleAlerts [("a", pLow), ("b", qLow)] engRule
            ++ evalScan [inactiveRule] [("a", pLow), ("b", qLow)])
      ∧ ruleAlerts [("a", pLow), ("b", qLow)] engRule
          = ((([("a", pLow), ("b", qLow)]).find? fun kv => nichePass engRule kv.2
              && decide ((5:ℚ) ≤ kv.2.average_engagement_rate.getD 0)).map
                (mkTriggered engRule)).toList
      ∧ (ruleAlerts [("a", pLow), ("b", qLow)] engRule ≠ []
          ↔ ([("a", pLow), ("b", qLow)]).any (fun kv => nichePass engRule kv.2
              && decide ((5:ℚ) ≤ kv.2.average_engagement_rate.getD 0)) = true)
      ∧ (ruleAlerts [("a", pLow), ("b", qLow)] engRule).length ≤ 1) :=
  ⟨rfl, rfl, by decide,
    c2_min_engagement_rule [("a", pLow), ("b", qLow)] [zeroRule] [inactiveRule] engRule 5
      rfl rfl (by decide)⟩

/-- C2 counterexample: a `min_engagement_rate` rule with threshold `0`
never triggers, although the profile passes the niche filter and its
engagement rate is at least the threshold — the claim as stated demands
one TriggeredAlert here. -/
theorem c2_threshold_zero_cex :
    zeroRule.condition_type = some "min_engagement_rate"
    ∧ zeroRule.value = some 0
    ∧ nichePass zeroRule qLow = true
    ∧ (0:ℚ) ≤ qLow.average_engagement_rate.getD 0
    ∧ evalScan [zeroRule] [("low", qLow)] = [] :=
  ⟨rfl, rfl, by decide, by decide, by decide⟩

/-- C3: the evaluation engine does not scan the full public pool and does
not restrict itself to active rules.  With the 26-profile pool `bigPool`,
the only profile satisfying the active rule (engagement 9 ≥ 5) ranks 26th
by market score, falls off the 25-element default search page the engine
fetches, and no alert fires — although the rule would trigger on it.  An
`is_active = False` rule, by contrast, does participate and fires. -/
theorem c3_pool_truncated :
    pLow ∈ bigPool
    ∧ (5:ℚ) ≤ pLow.average_engagement_rate.getD 0
    ∧ nichePass engRule pLow = true
    ∧ ruleAlerts [(qLow.id, qLow)] engRule ≠ []
    ∧ (evaluate_all_alerts {} AgentModel.noModel bigPool [engRule] 0 1000).alerts = []
    ∧ inactiveRule.is_active = some false
    ∧ (evaluate_all_alerts {} AgentModel.noModel [pLow] [inactiveRule] 0 1000).alerts
        ≠ [] := by
  refine ⟨by decide, by decide, by decide, by decide, ?_, rfl, ?_⟩
  · rw [evaluate_all_alerts_run {} AgentModel.noModel bigPool [engRule] 0 1000
      (by norm_num), bigPool_market]
    decide
  · rw [evaluate_all_alerts_run {} AgentModel.noModel [pLow] [inactiveRule] 0 1000
      (by norm_num), pLow_search]
    decide

/-- C4: an invocation whose gate passes records the new check time and
performs the two store listings; a second invocation less than the
configured interval after that recorded time performs no store listing,
no scan, and returns no alerts; and the gap between the previously
recorded check and an invocation that actually runs is never below the
interval. -/
theorem c4_skip_gate (settings : Settings) (agent : AgentModel) (pool : List Profile)
    (rules : List AlertRule) (t0 t1 t2 : ℚ)
    (h1 : ¬ (t1 - t0 < settings.ALERT_CHECK_INTERVAL_SECONDS))
    (h2 : t2 - t1 < settings.ALERT_CHECK_INTERVAL_SECONDS) :
    (evaluate_all_alerts settings agent pool rules t0 t1).last_check_time = t1
    ∧ (evaluate_all_alerts settings agent pool rules t0 t1).store_list_calls ≠ 0
    ∧ evaluate_all_alerts settings agent pool rules t1 t2
        = { last_check_time := t1, alerts := [], store_list_calls := 0 }
    ∧ settings.ALERT_CHECK_INTERVAL_SECONDS ≤ t1 - t0 := by
  rw [evaluate_all_alerts_run settings agent pool rules t0 t1 h1,
    evaluate_all_alerts_skip settings agent pool rules t1 t2 h2]
  exact ⟨rfl, by simp, rfl, not_lt.mp h1⟩

/-- The first invocation of the C4 witness is exactly at the interval
bound, so its gate passes. -/
theorem c4_gap_run : ¬ ((300:ℚ) - 0 < ({} : Settings).ALERT_CHECK_INTERVAL_SECONDS) := by
  show ¬ ((300:ℚ) - 0 < 300)
  norm_num

/-- The second invocation of the C4 witness comes 100 seconds later, so
its gate skips. -/
theorem c4_gap_skip : (400:ℚ) - 300 < ({} : Settings).ALERT_CHECK_INTERVAL_SECONDS := by
  show (400:ℚ) - 300 < 300
  norm_num

/-- C4 witness: first call at `t = 300` from last check `0`, second call
at `t = 400`. -/
theorem c4_skip_gate_witness :
    (¬ ((300:ℚ) - 0 < ({} : Settings).ALERT_CHECK_INTERVAL_SECONDS))
    ∧ ((400:ℚ) - 300 < ({} : Settings).ALERT_CHECK_INTERVAL_SECONDS)
    ∧ ((evaluate_all_alerts {} AgentModel.noModel [] [] 0 300).last_check_time = 300
      ∧ (evaluate_all_alerts {} AgentModel.noModel [] [] 0 300).store_list_calls ≠ 0
      ∧ evaluate_all_alerts {} AgentModel.noModel [] [] 300 400
          = { last_check_time := 300, alerts := [], store_list_calls := 0 }
      ∧ ({} : Settings).ALERT_CHECK_INTERVAL_SECONDS ≤ (300:ℚ) - 0) :=
  ⟨c4_gap_run, c4_gap_skip,
    c4_skip_gate {} AgentModel.noModel [] [] 0 300 400 c4_gap_run c4_gap_skip⟩

/-- C10: a rule whose threshold value is present but `0`, or whose
condition type is the empty string, contributes nothing to the scan —
wherever it sits among the rules, the cycle's result is as if the rule
were absent. -/
theorem c10_falsy_rule_skipped (pmap : List (String × Profile))
    (rules1 rules2 : List AlertRule) (r : AlertRule)
    (h : r.value = some 0 ∨ r.condition_type = some "") :
    ruleAlerts pmap r = []
    ∧ evalScan (rules1 ++ r :: rules2) pmap = evalScan (rules1 ++ rules2) pmap := by
  have hra : ruleAlerts pmap r = [] := by
    rcases h with h | h <;> simp [ruleAlerts, truthyNum, truthyStr, h]
  exact ⟨hra, by simp [evalScan_eq_flatMap, hra]⟩

/-- C10 witness: the zero-threshold rule is skipped in a cycle where the
scanned profile would satisfy its condition. -/
theorem c10_falsy_rule_skipped_witness :
    (zeroRule.value = some 0 ∨ zeroRule.condition_type = some "")
    ∧ (ruleAlerts [("low", qLow)] zeroRule = []
      ∧ evalScan ([engRule] ++ zeroRule :: []) [("low", qLow)]
          = evalScan ([engRule] ++ []) [("low", qLow)]) :=
  ⟨Or.inl rfl,
    c10_falsy_rule_skipped [("low", qLow)] [engRule] [] zeroRule (Or.inl rfl)⟩

/-- C5: with no truthy tenant identity bound, every private-scope store
operation fails with the Unauthorized condition; the same operations
against public scope succeed in any state, bound identity or not. -/
theorem c5_scope_auth (s s2 : FirestoreState) (c doc_id : String)
    (data : List (String × String)) (merge : Bool)
    (h : truthyStr s.current_user_id = false) :
    get_document s c doc_id true = .error authRequiredMsg
    ∧ get_collection s c true = .error authRequiredMsg
    ∧ add_document s c data true = .error authRequiredMsg
    ∧ set_document s c doc_id data true merge = .error authRequiredMsg
    ∧ delete_document s c doc_id true = .error authRequiredMsg
    ∧ (get_document s2 c doc_id false).isOk = true
    ∧ (get_collection s2 c false).isOk = true
    ∧ (add_document s2 c data false).isOk = true
    ∧ (set_document s2 c doc_id data false merge).isOk = true
    ∧ (delete_document s2 c doc_id false).isOk = true := by
  refine ⟨?_, ?_, ?_, ?_, ?_, ?_, ?_, ?_, ?_, ?_⟩ <;>
    simp [get_document, get_collection, add_document, set_document, delete_document,
      collection_path, private_collection_path, public_collection_path, h,
      Except.isOk, Except.toBool]

/-- C5 witness: guest state with no identity for the private side, a bound
identity for the public side. -/
theorem c5_scope_auth_witness :
    truthyStr (FirestoreState.mk "app-1" none).current_user_id = false
    ∧ (get_document ⟨"app-1", none⟩ "user_alerts" "d1" true = .error authRequiredMsg
      ∧ get_collection ⟨"app-1", none⟩ "user_alerts" true = .error authRequiredMsg
      ∧ add_document ⟨"app-1", none⟩ "user_alerts" [] true = .error authRequiredMsg
      ∧ set_document ⟨"app-1", none⟩ "user_alerts" "d1" [] true false
          = .error authRequiredMsg
      ∧ delete_document ⟨"app-1", none⟩ "user_alerts" "d1" true = .error authRequiredMsg
      ∧ (get_document ⟨"app-1", some "u1"⟩ "user_alerts" "d1" false).isOk = true
      ∧ (get_collection ⟨"app-1", some "u1"⟩ "user_alerts" false).isOk = true
      ∧ (add_document ⟨"app-1", some "u1"⟩ "user_alerts" [] false).isOk = true
      ∧ (set_document ⟨"app-1", some "u1"⟩ "user_alerts" "d1" [] false false).isOk = true
      ∧ (delete_document ⟨"app-1", some "u1"⟩ "user_alerts" "d1" false).isOk = true) :=
  ⟨rfl, c5_scope_auth ⟨"app-1", none⟩ ⟨"app-1", some "u1"⟩ "user_alerts" "d1" [] false rfl⟩

/-- C8: search results are sorted descending by market score, and the
sort is stable — for every score value, the result's records with that
score form an initial segment of the records with that score in the
filtered, scored listing, which is in original store order. -/
theorem c8_sort_stable (settings : Settings) (agent : AgentModel) (pool : List Profile)
    (qp : QueryParams) :
    (search_and_filter_influencers settings agent pool qp).Pairwise byScoreDesc
    ∧ ∀ k : ℚ, ∃ t,
        (filteredScored agent qp pool).filter (fun p => scoreKey p == k)
          = (search_and_filter_influencers settings agent pool qp).filter
              (fun p => scoreKey p == k) ++ t := by
  constructor
  · have hs : (rankedListing agent qp pool).Pairwise byScoreDesc :=
      List.sorted_insertionSort byScoreDesc (filteredScored agent qp pool)
    exact hs.sublist (List.take_sublist _ _)
  · intro k
    obtain ⟨t, ht⟩ := filter_take_initial (qp.limit.getD settings.DEFAULT_SEARCH_LIMIT)
      (rankedListing agent qp pool) (fun p => scoreKey p == k)
    refine ⟨t, ?_⟩
    rw [search_and_filter_influencers, ← ht, rankedListing, filter_insertionSort_key]

/-- C9 (amended): every profile in the search output satisfies the niche,
minimum-engagement and follower-bound predicates it was queried with (the
free-text predicate is not enforced by the service), and removing any one
predicate key — free text included — never shrinks the candidate set that
survives filtering before scoring. -/
theorem c9_predicates (settings : Settings) (agent : AgentModel) (pool : List Profile)
    (qp : QueryParams) (p : Profile) (k : SearchKey)
    (hp : p ∈ search_and_filter_influencers settings agent pool qp) :
    (truthyStr qp.niche = true → p.niche_label = qp.niche)
    ∧ (truthyNum qp.min_engagement_rate = true →
        qp.min_engagement_rate.getD 0 ≤ p.average_engagement_rate.getD 0)
    ∧ qp.min_followers.getD 0 ≤ p.follower_count.getD 0
    ∧ p.follower_count.getD 0 ≤ qp.max_followers.getD (p.follower_count.getD 0)
    ∧ List.Sublist (pool.filter (passesFilters qp))
        (pool.filter (passesFilters (removeKey qp k))) := by
  have hmem : p ∈ filteredScored agent qp pool := by
    have h1 : p ∈ rankedListing agent qp pool := List.mem_of_mem_take hp
    rwa [rankedListing, List.mem_insertionSort] at h1
  have hpass : passesFilters qp p = true := by
    rw [filteredScored_eq_map_filter] at hmem
    obtain ⟨p0, hp0, rfl⟩ := List.mem_map.mp hmem
    rw [passesFilters_attachScore]
    exact (List.mem_filter.mp hp0).2
  simp only [passesFilters, Bool.and_eq_true, Bool.or_eq_true, Bool.not_eq_true',
    decide_eq_true_eq] at hpass
  obtain ⟨⟨⟨h1, h2⟩, h3⟩, h4⟩ := hpass
  refine ⟨?_, ?_, h3, ?_, List.monotone_filter_right pool
    (fun a ha => passesFilters_removeKey qp k a ha)⟩
  · intro ht
    rcases h1 with h1 | h1
    · rw [ht] at h1; cases h1
    · exact eq_of_beq h1
  · intro ht
    rcases h2 with h2 | h2
    · rw [ht] at h2; cases h2
    · exact not_lt.mp (by simpa using h2)
  · rcases hmax : qp.max_followers with _ | m
    · exact le_refl _
    · rw [hmax] at h4
      simpa [maxFollowersOk] using h4

/-- Evaluation helper for the C9 witness: the scored `pLow` is a member
of the no-predicate search output over the one-profile pool. -/
theorem qLow_mem_pLow_search :
    qLow ∈ search_and_filter_influencers {} AgentModel.noModel [pLow] {} := by
  rw [pLow_search]
  exact List.mem_singleton_self qLow

/-- C9 witness: the no-predicate query over the one-profile pool, with
the free-text key removed. -/
theorem c9_predicates_witness :
    qLow ∈ search_and_filter_influencers {} AgentModel.noModel [pLow] {}
    ∧ ((truthyStr ({} : QueryParams).niche = true → qLow.niche_label = ({} : QueryParams).niche)
      ∧ (truthyNum ({} : QueryParams).min_engagement_rate = true →
          ({} : QueryParams).min_engagement_rate.getD 0
            ≤ qLow.average_engagement_rate.getD 0)
      ∧ ({} : QueryParams).min_followers.getD 0 ≤ qLow.follower_count.getD 0
      ∧ qLow.follower_count.getD 0
          ≤ ({} : QueryParams).max_followers.getD (qLow.follower_count.getD 0)
      ∧ List.Sublist ([pLow].filter (passesFilters {}))
          ([pLow].filter (passesFilters (removeKey {} SearchKey.freeText)))) :=
  ⟨qLow_mem_pLow_search,
    c9_predicates {} AgentModel.noModel [pLow] {} qLow SearchKey.freeText
      qLow_mem_pLow_search⟩

/-- C9 counterexample: with a free-text predicate supplied, the output
contains a profile that matches it on neither username nor bio — so the
output does not satisfy every supplied predicate. -/
theorem c9_free_text_cex :
    qAlice ∈ search_and_filter_influencers {} AgentModel.noModel [pAlice]
      { q := some "zzz" }
    ∧ specFreeTextMatch "zzz" qAlice.username = false
    ∧ specFreeTextMatch "zzz" qAlice.bio = false := by
  refine ⟨?_, by decide, by decide⟩
  rw [pAlice_search_q]
  exact List.mem_singleton_self qAlice

/-- C6 (amended): a scoring failure on a surviving record neither aborts
the search nor excludes the record — the candidate listing is every
surviving record scored, and the record whose model prediction raised
carries the deterministic mock fallback score. -/
theorem c6_scoring_fallback (f : Profile → Option ℚ) (qp : QueryParams)
    (pool : List Profile) (p : Profile)
    (hp : p ∈ pool) (hpass : passesFilters qp p = true) (hf : f p = none) :
    filteredScored (.loaded f) qp pool
      = (pool.filter (passesFilters qp)).map (attachScore (.loaded f))
    ∧ attachScore (.loaded f) p ∈ filteredScored (.loaded f) qp pool
    ∧ (attachScore (.loaded f) p).market_score
        = some (pyRound2 (npClip (mockRankScore p) 1 100)) := by
  refine ⟨filteredScored_eq_map_filter _ _ _, ?_, ?_⟩
  · rw [filteredScored_eq_map_filter]
    exact List.mem_map_of_mem _ (List.mem_filter.mpr ⟨hp, hpass⟩)
  · simp [attachScore, predict, rawRankScore, hf]

/-- C6 witness: a model that raises on every input, over the one-profile
pool, with no predicates. -/
theorem c6_scoring_fallback_witness :
    pLow ∈ [pLow]
    ∧ passesFilters {} pLow = true
    ∧ (fun _ : Profile => (none : Option ℚ)) pLow = none
    ∧ (filteredScored (.loaded fun _ => none) {} [pLow]
        = ([pLow].filter (passesFilters {})).map (attachScore (.loaded fun _ => none))
      ∧ attachScore (.loaded fun _ => none) pLow
          ∈ filteredScored (.loaded fun _ => none) {} [pLow]
      ∧ (attachScore (.loaded fun _ => none) pLow).market_score
          = some (pyRound2 (npClip (mockRankScore pLow) 1 100))) :=
  ⟨List.mem_singleton_self pLow, by decide, rfl,
    c6_scoring_fallback (fun _ => none) {} [pLow] pLow
      (List.mem_singleton_self pLow) (by decide) rfl⟩

/-- C6 counterexample: scoring fails on the single surviving record, yet
the search returns that record (scored by the mock fallback) instead of
excluding it — the claim as stated demands an empty result here. -/
theorem c6_excluded_cex :
    (fun _ : Profile => (none : Option ℚ)) pLow = none
    ∧ search_and_filter_influencers {} (AgentModel.loaded fun _ => none) [pLow] {}
        = [qLow]
    ∧ qLow.id = pLow.id :=
  ⟨rfl, pLow_search_failing_model, rfl⟩

/-- C7: the free-text query is accepted by the route and forwarded to the
service, but the service never reads it: a profile matching the query on
neither username nor bio is retained anyway. -/
theorem c7_free_text_ignored :
    search_influencers {} AgentModel.noModel [pAlice] (some "zzz") none 0 0 1 20
      = [qAlice]
    ∧ specFreeTextMatch "zzz" pAlice.username = false
    ∧ specFreeTextMatch "zzz" pAlice.bio = false := by
  refine ⟨?_, by decide, by decide⟩
  show ((search_and_filter_influencers {} AgentModel.noModel [pAlice]
      { q := some "zzz", niche := none, min_engagement_rate := some 0,
        min_followers := some 0, limit := some 20, page := some 1 }).drop 0).take 20
    = [qAlice]
  norm_num [search_and_filter_influencers, rankedListing, filteredScored, passesFilters,
    truthyStr, truthyNum, maxFollowersOk, List.insertionSort, List.orderedInsert,
    attachScore, predict, rawRankScore, mockRankScore, npClip, pyRound2, roundHalfEven,
    marketTier, pAlice, qAlice]

/-- C1: page 2 of a two-profile pool with page size 1 is empty, because
the route slices the service result after the service has already
truncated it to one page — while the unpaginated ranked listing has the
second-ranked profile at offset `(2-1)*1 + 0 = 1`, which the claim says
page 2 must surface. -/
theorem c1_page2_empty :
    search_influencers {} AgentModel.noModel [pAlice, pLow] none none 0 0 2 1 = []
    ∧ (rankedListing AgentModel.noModel
        { q := none, niche := none, min_engagement_rate := some 0,
          min_followers := some 0, limit := some 1, page := some 2 }
        [pAlice, pLow])[1]? = some qLow := by
  constructor
  · show ((search_and_filter_influencers {} AgentModel.noModel [pAlice, pLow]
        { q := none, niche := none, min_engagement_rate := some 0,
          min_followers := some 0, limit := some 1, page := some 2 }).drop 1).take 1
      = []
    norm_num [search_and_filter_influencers, rankedListing, filteredScored, passesFilters,
      truthyStr, truthyNum, maxFollowersOk, List.insertionSort, List.orderedInsert,
      byScoreDesc, scoreKey, attachScore, predict, rawRankScore, mockRankScore, npClip,
      pyRound2, roundHalfEven, marketTier, pAlice, qAlice, pLow, qLow]
  · norm_num [rankedListing, filteredScored, passesFilters,
      truthyStr, truthyNum, maxFollowersOk, List.insertionSort, List.orderedInsert,
      byScoreDesc, scoreKey, attachScore, predict, rawRankScore, mockRankScore, npClip,
      pyRound2, roundHalfEven, marketTier, pAlice, qAlice, pLow, qLow]

end InfluencerSphere
